import Mathlib

/-!
A shallow embedding of the `currency_api` repository (files `tools.py` and
`currency_api.py`) and proofs of the specification's claims about it.

Modelling conventions:
* A pandas `DataFrame` is modelled column-wise (as pandas stores it): a list
  of named columns, each holding one `CellValue` per row.
* A cell is `na` (pandas `NaN`), a parsed number, or a string.  `read_csv`
  parses a column as numeric exactly when every non-empty field of the column
  is a plain decimal literal, mirroring pandas' dtype inference for the
  dataset's format (plain decimal fields; empty field = missing value).
  A parsed number is kept as an exact decimal `mantissa / 10 ^ exp` in
  canonical form (no trailing fractional zeros), so that two fields compare
  equal exactly when the floats pandas would produce compare equal for such
  plain decimal literals; no claim depends on float rounding beyond the loss
  of the original text, which this representation captures faithfully.
* Python exceptions become `Except`/`Option` error values; the distinct
  exception kinds raised by the source (`Currency not available`,
  `Date not available`, `Currency data not available`, pandas `KeyError`,
  numpy `IndexError`, `FileNotFoundError`, `HTTPError`) become constructors.
* String splitting is implemented on `List Char` by structural recursion so
  that every definition evaluates inside the kernel.
-/

/-- A pandas cell: missing (`NaN`), a number (exact decimal
`mantissa / 10 ^ exp`, canonical: `exp = 0` or mantissa not ending in a
fractional zero), or a string. -/
inductive CellValue where
  | na : CellValue
  | num (mantissa : Int) (exp : Nat) : CellValue
  | str (s : String) : CellValue
deriving DecidableEq, Repr

/-- One named column of a `DataFrame`. -/
structure Column where
  name : String
  vals : List CellValue
deriving DecidableEq, Repr

/-- A pandas `DataFrame`, stored column-wise. -/
structure DataFrame where
  cols : List Column
deriving DecidableEq, Repr

/-- `df.columns.values`: the list of column names. -/
def colNames (df : DataFrame) : List String :=
  df.cols.map (fun c => c.name)

/-- `df[c]`: the first column named `c`, if any (pandas column names are
unique after `read_csv`, which mangles duplicate headers). -/
def getCol? (df : DataFrame) (c : String) : Option Column :=
  df.cols.find? (fun col => col.name = c)

/-- Split a character list at every occurrence of `sep`. -/
def splitOnChar (sep : Char) : List Char → List (List Char)
  | [] => [[]]
  | c :: cs =>
    let rest := splitOnChar sep cs
    if c = sep then
      [] :: rest
    else
      match rest with
      | [] => [[c]]
      | r :: rs => (c :: r) :: rs

/-- Numeric value of a list of decimal digit characters. -/
def digitsVal (l : List Char) : Nat :=
  l.foldl (fun a c => a * 10 + (c.toNat - 48)) 0

/-- Drop trailing `'0'` characters. -/
def dropTrailingZeros (l : List Char) : List Char :=
  (l.reverse.dropWhile (fun c => c = '0')).reverse

/-- Parse a plain decimal literal (optional sign, digits, at most one dot,
at least one digit), the field format accepted by pandas' numeric dtype
inference on this dataset.  Returns the canonical `(mantissa, exp)` pair
denoting `mantissa / 10 ^ exp`. -/
def parseDecimal? (s : List Char) : Option (Int × Nat) :=
  let sgn : Int := match s with
    | '-' :: _ => -1
    | _ => 1
  let body : List Char := match s with
    | '-' :: rest => rest
    | '+' :: rest => rest
    | cs => cs
  match splitOnChar '.' body with
  | [ip] =>
    if ip ≠ [] ∧ ip.all Char.isDigit then
      some (sgn * (digitsVal ip : Int), 0)
    else
      none
  | [ip, fp] =>
    if (ip ≠ [] ∨ fp ≠ []) ∧ ip.all Char.isDigit ∧ fp.all Char.isDigit then
      let fp' := dropTrailingZeros fp
      some (sgn * (digitsVal (ip ++ fp') : Int), fp'.length)
    else
      none
  | _ => none

/-- Convert one raw field to a cell, given whether the whole column was
inferred numeric.  An empty field is pandas' default missing value. -/
def parseCell (numeric : Bool) (f : List Char) : CellValue :=
  if f = [] then
    CellValue.na
  else if numeric then
    match parseDecimal? f with
    | some (m, e) => CellValue.num m e
    | none => CellValue.str (String.mk f)
  else
    CellValue.str (String.mk f)

/-- `pd.read_csv` (`currency_api.py` line 25) on the extracted member's text:
first non-blank line is the header, remaining non-blank lines are rows,
fields are comma-separated; a column is numeric when every non-empty field
parses as a plain decimal; rows shorter than the header are padded with
missing values (as pandas does). -/
def read_csv (s : String) : DataFrame :=
  match (splitOnChar '\n' s.data).filter (fun l => l ≠ []) with
  | [] => ⟨[]⟩
  | header :: dataLines =>
    let names := splitOnChar ',' header
    let rawRows := dataLines.map (fun l => splitOnChar ',' l)
    ⟨(List.range names.length).map (fun i =>
      let fields := rawRows.map (fun r => r.getD i [])
      let numeric := fields.all (fun f => f = [] ∨ (parseDecimal? f).isSome)
      ⟨String.mk (names.getD i []), fields.map (fun f => parseCell numeric f)⟩)⟩

/-- `df.dropna(axis=1, how='all')` (`currency_api.py` line 28): keep exactly
the columns holding at least one non-missing value. -/
def dropna (df : DataFrame) : DataFrame :=
  ⟨df.cols.filter (fun col => col.vals.any (fun v => decide (v ≠ CellValue.na)))⟩

/-- The table built by the pipeline (`currency_api.py` lines 25–28):
`pd.read_csv` followed by all-null column pruning. -/
def buildTable (s : String) : DataFrame :=
  dropna (read_csv s)

/-- The exceptions observable from `CurrencyExtractor.get_value`. -/
inductive LookupError where
  | currencyNotAvailable (currency : String) : LookupError
  | dateNotAvailable (date : String) : LookupError
  | dataNotAvailable (currency date : String) : LookupError
  | keyError (column : String) : LookupError
  | indexError : LookupError
deriving DecidableEq, Repr

/-- The dictionary returned by a successful `CurrencyExtractor.get_value`. -/
structure LookupResult where
  currency : String
  date : String
  value : CellValue
deriving DecidableEq, Repr

/-- `CurrencyExtractor._validate_inputs` (`tools.py` lines 195–207):
first the currency check (`currency not in df.columns.values or
currency == 'Date'`), then the date check (`date not in df['Date'].values`;
evaluating `df['Date']` on a frame without that column raises `KeyError`). -/
def validate_inputs (df : DataFrame) (date currency : String) : Option LookupError :=
  if currency ∉ colNames df ∨ currency = "Date" then
    some (LookupError.currencyNotAvailable currency)
  else
    match getCol? df "Date" with
    | none => some (LookupError.keyError "Date")
    | some dcol =>
      if CellValue.str date ∉ dcol.vals then
        some (LookupError.dateNotAvailable date)
      else
        none

/-- `df.loc[df['Date'] == date, currency].values`: the currency-column
values of the rows whose `Date` cell equals the string `date`, in row
order. -/
def selectionOf (dvals cvals : List CellValue) (date : String) : List CellValue :=
  ((dvals.zip cvals).filter (fun p => decide (p.1 = CellValue.str date))).map
    (fun p => p.2)

/-- `CurrencyExtractor.get_value` (`tools.py` lines 164–193): validate, then
select the matching rows' values, take element `0` (numpy raises
`IndexError` when the selection is empty), raise `Currency data not
available` when it is missing, and otherwise return the result
dictionary. -/
def get_value (df : DataFrame) (date currency : String) :
    Except LookupError LookupResult :=
  match validate_inputs df date currency with
  | some e => Except.error e
  | none =>
    match getCol? df "Date", getCol? df currency with
    | none, _ => Except.error (LookupError.keyError "Date")
    | some _, none => Except.error (LookupError.keyError currency)
    | some dcol, some ccol =>
      match (selectionOf dcol.vals ccol.vals date).head? with
      | none => Except.error LookupError.indexError
      | some v =>
        if v = CellValue.na then
          Except.error (LookupError.dataNotAvailable currency date)
        else
          Except.ok ⟨currency, date, v⟩

/-- One entry of a zip archive, in stored order inside the archive. -/
structure ZipEntry where
  filename : String
  content : List Nat
deriving DecidableEq, Repr

/-- The exception raised by `Unzipper._extract_file`. -/
inductive ExtractError where
  | fileNotFound (name : String) : ExtractError
deriving DecidableEq, Repr

/-- `Unzipper._extract_file` (`tools.py` lines 115–142): walk the archive's
`infolist()` in stored order, return the content of the first entry whose
`filename` equals the target exactly, and raise `FileNotFoundError` after
exhausting all entries. -/
def extract_file (entries : List ZipEntry) (target : String) :
    Except ExtractError (List Nat) :=
  match entries with
  | [] => Except.error (ExtractError.fileNotFound target)
  | e :: rest =>
    if e.filename = target then
      Except.ok e.content
    else
      extract_file rest target

/-- An HTTP response as seen by `ZipDownloader`. -/
structure Response where
  status_code : Nat
  content : List Nat
deriving DecidableEq, Repr

/-- The exception raised by `ZipDownloader._check_response`. -/
inductive DownloadError where
  | httpError (code : Nat) : DownloadError
deriving DecidableEq, Repr

/-- `ZipDownloader._check_response` (`tools.py` lines 65–77): raise
`HTTPError` exactly when the status code is not 200. -/
def check_response (r : Response) : Option DownloadError :=
  if r.status_code ≠ 200 then
    some (DownloadError.httpError r.status_code)
  else
    none

/-- `ZipDownloader.get_file` (`tools.py` lines 25–46) applied to the
response of `_make_request`: check the status, then return the body
(`io.BytesIO(response.content)`) unchanged. -/
def get_file (r : Response) : Except DownloadError (List Nat) :=
  match check_response r with
  | some e => Except.error e
  | none => Except.ok r.content

/-- The JSON body produced by the Flask endpoint. -/
inductive JsonBody where
  | result (currency date : String) (value : CellValue) : JsonBody
  | error (msg : String) : JsonBody
deriving DecidableEq, Repr

/-- An HTTP response of the Flask endpoint: status code and JSON body. -/
structure HttpResponse where
  status : Nat
  body : JsonBody
deriving DecidableEq, Repr

/-- The error message of `currency_api.py` line 42, verbatim. -/
def genericErrorMsg : String :=
  "Something wrong happend, please read the log for more information"

/-- The Flask route handler (`currency_api.py` lines 31–45): on success,
`jsonify(result)` with Flask's default status 200; on any exception
(`except BaseException`, the error value discarded), the fixed error body
with status 404. -/
def endpoint (df : DataFrame) (date currency : String) : HttpResponse :=
  match get_value df date currency with
  | Except.ok r => ⟨200, JsonBody.result r.currency r.date r.value⟩
  | Except.error _ => ⟨404, JsonBody.error genericErrorMsg⟩

instance {ε α : Type} [DecidableEq ε] [DecidableEq α] : DecidableEq (Except ε α) := fun a b =>
  match a, b with
  | Except.ok x, Except.ok y =>
    if h : x = y then Decidable.isTrue (congrArg Except.ok h)
    else Decidable.isFalse (fun hc => h (Except.ok.inj hc))
  | Except.error x, Except.error y =>
    if h : x = y then Decidable.isTrue (congrArg Except.error h)
    else Decidable.isFalse (fun hc => h (Except.error.inj hc))
  | Except.ok _, Except.error _ => Decidable.isFalse (fun hc => Except.noConfusion hc)
  | Except.error _, Except.ok _ => Decidable.isFalse (fun hc => Except.noConfusion hc)

theorem getCol?_name {df : DataFrame} {c : String} {col : Column}
    (h : getCol? df c = some col) : col.name = c := by
  simpa using List.find?_some h

theorem getCol?_mem {df : DataFrame} {c : String} {col : Column}
    (h : getCol? df c = some col) : col ∈ df.cols :=
  List.mem_of_find?_eq_some h

theorem mem_colNames_of_getCol? {df : DataFrame} {c : String} {col : Column}
    (h : getCol? df c = some col) : c ∈ colNames df := by
  exact List.mem_map.mpr ⟨col, getCol?_mem h, getCol?_name h⟩

theorem getCol?_of_mem {df : DataFrame} {c : String} (h : c ∈ colNames df) :
    ∃ col, getCol? df c = some col := by
  rcases List.mem_map.mp h with ⟨col, hmem, hname⟩
  have hs : ((df.cols.find? (fun col => col.name = c))).isSome :=
    List.find?_isSome.mpr ⟨col, hmem, by simp [hname]⟩
  rcases Option.isSome_iff_exists.mp hs with ⟨col', h'⟩
  exact ⟨col', h'⟩

theorem validate_inputs_currency_invalid {df : DataFrame} {date currency : String}
    (h : currency ∉ colNames df ∨ currency = "Date") :
    validate_inputs df date currency =
      some (LookupError.currencyNotAvailable currency) := by
  rw [validate_inputs, if_pos h]

theorem validate_inputs_date_missing {df : DataFrame} {date currency : String}
    {dcol : Column} (hc : currency ∈ colNames df) (hne : currency ≠ "Date")
    (hD : getCol? df "Date" = some dcol)
    (hd : CellValue.str date ∉ dcol.vals) :
    validate_inputs df date currency = some (LookupError.dateNotAvailable date) := by
  rw [validate_inputs, if_neg (by push_neg; exact ⟨hc, hne⟩)]
  simp only [hD, if_pos hd]

theorem validate_inputs_ok {df : DataFrame} {date currency : String}
    {dcol : Column} (hc : currency ∈ colNames df) (hne : currency ≠ "Date")
    (hD : getCol? df "Date" = some dcol)
    (hd : CellValue.str date ∈ dcol.vals) :
    validate_inputs df date currency = none := by
  rw [validate_inputs, if_neg (by push_neg; exact ⟨hc, hne⟩)]
  simp only [hD, if_neg (not_not_intro hd)]

theorem validate_inputs_none_elim {df : DataFrame} {date currency : String}
    (h : validate_inputs df date currency = none) :
    currency ∈ colNames df ∧ currency ≠ "Date" ∧
      ∃ dcol, getCol? df "Date" = some dcol ∧ CellValue.str date ∈ dcol.vals := by
  by_cases h1 : currency ∉ colNames df ∨ currency = "Date"
  · rw [validate_inputs, if_pos h1] at h
    exact absurd h (by simp)
  · have h1' := h1
    push_neg at h1'
    obtain ⟨hc, hne⟩ := h1'
    rw [validate_inputs, if_neg h1] at h
    cases hD : getCol? df "Date" with
    | none =>
      simp only [hD] at h
      exact Option.noConfusion h
    | some dcol =>
      simp only [hD] at h
      by_cases hd : CellValue.str date ∉ dcol.vals
      · rw [if_pos hd] at h
        exact absurd h (by simp)
      · exact ⟨hc, hne, dcol, rfl, not_not.mp hd⟩

theorem get_value_eq_of_validate {df : DataFrame} {date currency : String}
    {e : LookupError} (h : validate_inputs df date currency = some e) :
    get_value df date currency = Except.error e := by
  rw [get_value]
  simp only [h]

theorem get_value_currency_invalid {df : DataFrame} {date currency : String}
    (h : currency ∉ colNames df ∨ currency = "Date") :
    get_value df date currency =
      Except.error (LookupError.currencyNotAvailable currency) :=
  get_value_eq_of_validate (validate_inputs_currency_invalid h)

theorem get_value_date_missing {df : DataFrame} {date currency : String}
    {dcol : Column} (hc : currency ∈ colNames df) (hne : currency ≠ "Date")
    (hD : getCol? df "Date" = some dcol)
    (hd : CellValue.str date ∉ dcol.vals) :
    get_value df date currency = Except.error (LookupError.dateNotAvailable date) :=
  get_value_eq_of_validate (validate_inputs_date_missing hc hne hD hd)

theorem selectionOf_first {date : String} {v : CellValue}
    (dpre dpost cpre cpost : List CellValue)
    (hlen : dpre.length = cpre.length)
    (hne : ∀ x ∈ dpre, x ≠ CellValue.str date) :
    (selectionOf (dpre ++ CellValue.str date :: dpost)
      (cpre ++ v :: cpost) date).head? = some v := by
  induction dpre generalizing cpre with
  | nil =>
    have hc : cpre = [] := by
      cases cpre with
      | nil => rfl
      | cons c cs => simp at hlen
    subst hc
    simp [selectionOf]
  | cons d dpre ih =>
    cases cpre with
    | nil => simp at hlen
    | cons c cpre =>
      have hd : d ≠ CellValue.str date := hne d (by simp)
      have := ih cpre (by simpa using hlen) (fun x hx => hne x (by simp [hx]))
      simpa [selectionOf, hd] using this

theorem selectionOf_ne_nil {date : String} (dvals cvals : List CellValue)
    (hlen : dvals.length = cvals.length)
    (hmem : CellValue.str date ∈ dvals) :
    selectionOf dvals cvals date ≠ [] := by
  induction dvals generalizing cvals with
  | nil => simp at hmem
  | cons d dvals ih =>
    cases cvals with
    | nil => simp at hlen
    | cons c cvals =>
      by_cases hd : d = CellValue.str date
      · simp [selectionOf, hd]
      · rcases List.mem_cons.mp hmem with h | h
        · exact absurd h.symm hd
        · have := ih cvals (by simpa using hlen) h
          simpa [selectionOf, hd] using this

theorem get_value_first_match {df : DataFrame} {date currency : String}
    {dcol ccol : Column} {dpre dpost cpre cpost : List CellValue} {v : CellValue}
    (hD : getCol? df "Date" = some dcol)
    (hC : getCol? df currency = some ccol)
    (hne : currency ≠ "Date")
    (hdv : dcol.vals = dpre ++ CellValue.str date :: dpost)
    (hcv : ccol.vals = cpre ++ v :: cpost)
    (hlen : dpre.length = cpre.length)
    (hfirst : ∀ x ∈ dpre, x ≠ CellValue.str date) :
    get_value df date currency =
      if v = CellValue.na then
        Except.error (LookupError.dataNotAvailable currency date)
      else
        Except.ok ⟨currency, date, v⟩ := by
  have hcmem : currency ∈ colNames df := mem_colNames_of_getCol? hC
  have hdmem : CellValue.str date ∈ dcol.vals := by rw [hdv]; simp
  have hval : validate_inputs df date currency = none :=
    validate_inputs_ok hcmem hne hD hdmem
  have hsel : (selectionOf dcol.vals ccol.vals date).head? = some v := by
    rw [hdv, hcv]
    exact selectionOf_first dpre dpost cpre cpost hlen hfirst
  rw [get_value]
  simp only [hval, hD, hC, hsel]

theorem get_value_total_of_validate_none {df : DataFrame} {date currency : String}
    (hrect : ∀ c₁ ∈ df.cols, ∀ c₂ ∈ df.cols, c₁.vals.length = c₂.vals.length)
    (h : validate_inputs df date currency = none) :
    (∃ r, get_value df date currency = Except.ok r) ∨
      get_value df date currency =
        Except.error (LookupError.dataNotAvailable currency date) := by
  obtain ⟨hc, hne, dcol, hD, hdm⟩ := validate_inputs_none_elim h
  obtain ⟨ccol, hC⟩ := getCol?_of_mem hc
  have hlen : dcol.vals.length = ccol.vals.length :=
    hrect dcol (getCol?_mem hD) ccol (getCol?_mem hC)
  have hnil : selectionOf dcol.vals ccol.vals date ≠ [] :=
    selectionOf_ne_nil dcol.vals ccol.vals hlen hdm
  obtain ⟨v, hv⟩ : ∃ v, (selectionOf dcol.vals ccol.vals date).head? = some v := by
    cases hsel : selectionOf dcol.vals ccol.vals date with
    | nil => exact absurd hsel hnil
    | cons a l => exact ⟨a, by simp⟩
  have hg : get_value df date currency =
      if v = CellValue.na then
        Except.error (LookupError.dataNotAvailable currency date)
      else
        Except.ok ⟨currency, date, v⟩ := by
    rw [get_value]
    simp only [h, hD, hC, hv]
  by_cases hna : v = CellValue.na
  · right
    rw [hg, if_pos hna]
  · left
    exact ⟨⟨currency, date, v⟩, by rw [hg, if_neg hna]⟩

theorem read_csv_rect (s : String) :
    ∀ c₁ ∈ (read_csv s).cols, ∀ c₂ ∈ (read_csv s).cols,
      c₁.vals.length = c₂.vals.length := by
  intro c₁ h₁ c₂ h₂
  rw [read_csv] at h₁ h₂
  rcases hl : (splitOnChar '\n' s.data).filter (fun l => l ≠ []) with - | ⟨header, dataLines⟩
  · rw [hl] at h₁
    simp at h₁
  · rw [hl] at h₁ h₂
    simp only [List.mem_map, List.mem_range] at h₁ h₂
    obtain ⟨i, -, rfl⟩ := h₁
    obtain ⟨j, -, rfl⟩ := h₂
    simp

theorem dropna_sub {df : DataFrame} {col : Column}
    (h : col ∈ (dropna df).cols) : col ∈ df.cols :=
  List.mem_of_mem_filter h

theorem buildTable_rect (s : String) :
    ∀ c₁ ∈ (buildTable s).cols, ∀ c₂ ∈ (buildTable s).cols,
      c₁.vals.length = c₂.vals.length :=
  fun c₁ h₁ c₂ h₂ => read_csv_rect s c₁ (dropna_sub h₁) c₂ (dropna_sub h₂)

theorem mem_dropna_iff {df : DataFrame} {col : Column} :
    col ∈ (dropna df).cols ↔ col ∈ df.cols ∧ ∃ v ∈ col.vals, v ≠ CellValue.na := by
  rw [dropna, List.mem_filter]
  simp [List.any_eq_true]

theorem extract_file_skips_mismatches (pre : List ZipEntry) (e : ZipEntry)
    (post : List ZipEntry) (target : String)
    (hpre : ∀ x ∈ pre, x.filename ≠ target) (he : e.filename = target) :
    extract_file (pre ++ e :: post) target = Except.ok e.content := by
  induction pre with
  | nil => simp [extract_file, he]
  | cons a pre ih =>
    have ha : a.filename ≠ target := hpre a (by simp)
    rw [List.cons_append]
    simp only [extract_file, if_neg ha]
    exact ih (fun x hx => hpre x (by simp [hx]))

theorem extract_file_not_found (entries : List ZipEntry) (target : String)
    (h : ∀ x ∈ entries, x.filename ≠ target) :
    extract_file entries target = Except.error (ExtractError.fileNotFound target) := by
  induction entries with
  | nil => rfl
  | cons a rest ih =>
    have ha : a.filename ≠ target := h a (by simp)
    simp only [extract_file, if_neg ha]
    exact ih (fun x hx => h x (by simp [hx]))

/-- The spec's end-to-end sample table, as CSV text: columns `Date, USD, SEK`,
rows `2023-11-20`, `2023-11-21`, `2023-11-22`, with the `SEK` value of the
last row missing. -/
def sampleCsv : String :=
  "Date,USD,SEK\n2023-11-20,3.1415,6.6260\n2023-11-21,1.4142,9.1093\n2023-11-22,2.7182,\n"

/-- A CSV whose date key `2023-11-20` occurs in two rows: the first match
holds `1.5`, the later match is missing. -/
def dupCsv : String :=
  "Date,USD\n2023-11-20,1.5\n2023-11-20,\n"

/-- A CSV whose `GBP` column is entirely null. -/
def nullColCsv : String :=
  "Date,USD,GBP\n2023-11-20,1.5,\n"

/-- Claim C1, counterexample: the pipeline built from a member whose `USD`
field reads `1.10` answers the lookup with the re-parsed numeric value
`11 / 10 ^ 1`, not with the string `"1.10"` as it appears textually in the
source data: `pd.read_csv` infers a numeric dtype for the column, so the
textual representation is not preserved. -/
theorem textual_roundtrip_counterexample :
    get_value (buildTable "Date,USD\n2023-11-20,1.10\n") "2023-11-20" "USD" =
        Except.ok ⟨"USD", "2023-11-20", CellValue.num 11 1⟩ ∧
      CellValue.num 11 1 ≠ CellValue.str "1.10" := by
  constructor
  · rfl
  · decide

/-- Claim C1, amended: for every (date, currency) pair present and non-null
in the table built by the pipeline, lookup returns the value exactly as
stored in that table — for columns pandas keeps as strings this is the
source text, while numeric columns have been re-parsed, so the original
textual representation is not preserved in general. -/
theorem lookup_returns_stored_table_value (csv date currency : String)
    (dcol ccol : Column) (dpre dpost cpre cpost : List CellValue) (v : CellValue)
    (hD : getCol? (buildTable csv) "Date" = some dcol)
    (hC : getCol? (buildTable csv) currency = some ccol)
    (hne : currency ≠ "Date")
    (hdv : dcol.vals = dpre ++ CellValue.str date :: dpost)
    (hfirst : ∀ x ∈ dpre, x ≠ CellValue.str date)
    (hlen : dpre.length = cpre.length)
    (hcv : ccol.vals = cpre ++ v :: cpost)
    (hv : v ≠ CellValue.na) :
    get_value (buildTable csv) date currency = Except.ok ⟨currency, date, v⟩ := by
  rw [get_value_first_match hD hC hne hdv hcv hlen hfirst, if_neg hv]

/-- Witness for the amended claim C1, on the spec's sample table. -/
theorem lookup_returns_stored_table_value_witness :
    get_value (buildTable sampleCsv) "2023-11-20" "USD" =
      Except.ok ⟨"USD", "2023-11-20", CellValue.num 31415 4⟩ :=
  lookup_returns_stored_table_value sampleCsv "2023-11-20" "USD"
    ⟨"Date", [CellValue.str "2023-11-20", CellValue.str "2023-11-21",
      CellValue.str "2023-11-22"]⟩
    ⟨"USD", [CellValue.num 31415 4, CellValue.num 14142 4, CellValue.num 27182 4]⟩
    [] [CellValue.str "2023-11-21", CellValue.str "2023-11-22"]
    [] [CellValue.num 14142 4, CellValue.num 27182 4] (CellValue.num 31415 4)
    (by decide) (by decide) (by decide) (by decide) (by decide) (by decide)
    (by decide) (by decide)

/-- Claim C2: the failure conditions of lookup are evaluated in a fixed
order — invalid currency first (it fires whatever the other arguments are),
then date not present, then null first-match value — so the earliest
violated check determines the raised error. -/
theorem lookup_error_priority (df : DataFrame) (date currency : String)
    (dcol : Column) (hD : getCol? df "Date" = some dcol) :
    ((currency ∉ colNames df ∨ currency = "Date") →
      get_value df date currency =
        Except.error (LookupError.currencyNotAvailable currency)) ∧
    (currency ∈ colNames df → currency ≠ "Date" →
      CellValue.str date ∉ dcol.vals →
      get_value df date currency =
        Except.error (LookupError.dateNotAvailable date)) ∧
    (∀ ccol dpre dpost cpre cpost,
      getCol? df currency = some ccol → currency ≠ "Date" →
      dcol.vals = dpre ++ CellValue.str date :: dpost →
      (∀ x ∈ dpre, x ≠ CellValue.str date) →
      dpre.length = cpre.length →
      ccol.vals = cpre ++ CellValue.na :: cpost →
      get_value df date currency =
        Except.error (LookupError.dataNotAvailable currency date)) := by
  refine ⟨fun h => get_value_currency_invalid h,
    fun hc hne hd => get_value_date_missing hc hne hD hd,
    fun ccol dpre dpost cpre cpost hC hne hdv hfirst hlen hcv => ?_⟩
  rw [get_value_first_match hD hC hne hdv hcv hlen hfirst, if_pos rfl]

/-- Witness for claim C2: with the currency invalid and the date absent at
the same time, the currency error fires. -/
theorem lookup_error_priority_witness :
    get_value (buildTable sampleCsv) "1999-01-01" "ASD" =
      Except.error (LookupError.currencyNotAvailable "ASD") :=
  (lookup_error_priority (buildTable sampleCsv) "1999-01-01" "ASD"
    ⟨"Date", [CellValue.str "2023-11-20", CellValue.str "2023-11-21",
      CellValue.str "2023-11-22"]⟩
    (by decide)).1 (by decide)

/-- Claim C3, counterexample: the build-time pruning does not exempt the
reserved date-key column.  On a member whose `Date` fields are all empty,
`read_csv` yields an all-null `Date` column, and `dropna` removes it, so a
column other than a "non-date-key all-null column" is dropped. -/
theorem datekey_pruning_counterexample :
    getCol? (read_csv "Date,USD\n,1.0\n") "Date" = some ⟨"Date", [CellValue.na]⟩ ∧
      "Date" ∈ colNames (read_csv "Date,USD\n,1.0\n") ∧
      "Date" ∉ colNames (buildTable "Date,USD\n,1.0\n") := by
  decide

/-- Claim C3, amended: at build time every column whose values are null in
every row is dropped — including the reserved date-key column, which the
code does not exempt — and only such columns are dropped; consequently a
lookup naming a currency whose column was entirely null fails with the
currency-not-available error, as if the column never existed. -/
theorem dropna_prunes_exactly_all_null_columns (df : DataFrame) :
    (∀ col, col ∈ (dropna df).cols ↔
      (col ∈ df.cols ∧ ¬ ∀ v ∈ col.vals, v = CellValue.na)) ∧
    (∀ c date,
      (∀ col ∈ df.cols, col.name = c → ∀ v ∈ col.vals, v = CellValue.na) →
      get_value (dropna df) date c =
        Except.error (LookupError.currencyNotAvailable c)) := by
  constructor
  · intro col
    rw [mem_dropna_iff]
    constructor
    · rintro ⟨h1, v, hv, hvne⟩
      exact ⟨h1, fun hall => hvne (hall v hv)⟩
    · rintro ⟨h1, hna⟩
      refine ⟨h1, ?_⟩
      by_contra hno
      push_neg at hno
      exact hna hno
  · intro c date hall
    have hnotmem : c ∉ colNames (dropna df) := by
      intro hmem
      rcases List.mem_map.mp hmem with ⟨col, hcol, hname⟩
      rcases mem_dropna_iff.mp hcol with ⟨h1, v, hv, hvne⟩
      exact hvne (hall col h1 hname v hv)
    exact get_value_currency_invalid (Or.inl hnotmem)

/-- Witness for the amended claim C3: the entirely-null `GBP` column is
unqueryable after the build. -/
theorem dropna_prunes_exactly_all_null_columns_witness :
    get_value (dropna (read_csv nullColCsv)) "2023-11-20" "GBP" =
      Except.error (LookupError.currencyNotAvailable "GBP") :=
  (dropna_prunes_exactly_all_null_columns (read_csv nullColCsv)).2
    "GBP" "2023-11-20" (by decide)

/-- Claim C4: for every table and date, looking up the reserved date-key
column name as a currency fails with the currency-not-available error, even
though that name is a column of the table. -/
theorem datekey_lookup_always_fails (df : DataFrame) (date : String) :
    get_value df date "Date" =
      Except.error (LookupError.currencyNotAvailable "Date") :=
  get_value_currency_invalid (Or.inr rfl)

/-- Claim C5: extraction walks the archive entries in stored order and
returns the decompressed content of the first entry whose name is exactly
equal to the requested member name; when no entry matches exactly it fails
with the not-found error after enumerating all entries. -/
theorem extract_first_exact_match (entries : List ZipEntry) (target : String) :
    (∀ pre e post, entries = pre ++ e :: post →
      (∀ x ∈ pre, x.filename ≠ target) → e.filename = target →
      extract_file entries target = Except.ok e.content) ∧
    ((∀ x ∈ entries, x.filename ≠ target) →
      extract_file entries target = Except.error (ExtractError.fileNotFound target)) :=
  ⟨fun pre e post heq hpre he =>
    heq ▸ extract_file_skips_mismatches pre e post target hpre he,
   fun h => extract_file_not_found entries target h⟩

/-- Witness for claim C5: an archive holding only `data.csv` answers that
exact name, but neither `Data.csv` nor `data.csv ` (trailing space). -/
theorem extract_first_exact_match_witness :
    extract_file [⟨"data.csv", [110, 97, 118]⟩] "data.csv" =
        Except.ok [110, 97, 118] ∧
      extract_file [⟨"data.csv", [110, 97, 118]⟩] "Data.csv" =
        Except.error (ExtractError.fileNotFound "Data.csv") ∧
      extract_file [⟨"data.csv", [110, 97, 118]⟩] "data.csv " =
        Except.error (ExtractError.fileNotFound "data.csv ") :=
  ⟨(extract_first_exact_match [⟨"data.csv", [110, 97, 118]⟩] "data.csv").1
      [] ⟨"data.csv", [110, 97, 118]⟩ [] (by decide) (by decide) (by decide),
   (extract_first_exact_match [⟨"data.csv", [110, 97, 118]⟩] "Data.csv").2
      (by decide),
   (extract_first_exact_match [⟨"data.csv", [110, 97, 118]⟩] "data.csv ").2
      (by decide)⟩

/-- Claim C6: the fetch fails with the HTTP status error carrying the code
whenever the response status is not 200, producing no blob; with status 200
it returns the full response body unchanged. -/
theorem fetch_status_check (r : Response) :
    (r.status_code ≠ 200 →
      get_file r = Except.error (DownloadError.httpError r.status_code)) ∧
    (r.status_code = 200 → get_file r = Except.ok r.content) := by
  constructor
  · intro h
    simp [get_file, check_response, h]
  · intro h
    simp [get_file, check_response, h]

/-- Witness for claim C6, at statuses 404 and 200. -/
theorem fetch_status_check_witness :
    get_file ⟨404, [48, 49]⟩ = Except.error (DownloadError.httpError 404) ∧
      get_file ⟨200, [48, 49]⟩ = Except.ok [48, 49] :=
  ⟨(fetch_status_check ⟨404, [48, 49]⟩).1 (by decide),
   (fetch_status_check ⟨200, [48, 49]⟩).2 rfl⟩

/-- Claim C7: for every table with its date-key column and every valid
currency (a non-date-key column), a lookup whose date does not appear in the
date-key column fails with the date-not-available error carrying that
date. -/
theorem lookup_missing_date (df : DataFrame) (date currency : String)
    (dcol : Column) (hD : getCol? df "Date" = some dcol)
    (hc : currency ∈ colNames df) (hne : currency ≠ "Date")
    (hd : CellValue.str date ∉ dcol.vals) :
    get_value df date currency =
      Except.error (LookupError.dateNotAvailable date) :=
  get_value_date_missing hc hne hD hd

/-- Witness for claim C7, the spec's end-to-end scenario 2. -/
theorem lookup_missing_date_witness :
    get_value (buildTable sampleCsv) "2023-11-19" "USD" =
      Except.error (LookupError.dateNotAvailable "2023-11-19") :=
  lookup_missing_date (buildTable sampleCsv) "2023-11-19" "USD"
    ⟨"Date", [CellValue.str "2023-11-20", CellValue.str "2023-11-21",
      CellValue.str "2023-11-22"]⟩
    (by decide) (by decide) (by decide) (by decide)

/-- Claim C8: when one or more rows match the requested date (duplicates
included), lookup deterministically takes the first matching row's value in
row order; it fails with the data-not-available error exactly when that
first match is null, regardless of the later matching rows' values. -/
theorem lookup_first_match_semantics (df : DataFrame) (date currency : String)
    (dcol ccol : Column) (dpre dpost cpre cpost : List CellValue) (v : CellValue)
    (hD : getCol? df "Date" = some dcol)
    (hC : getCol? df currency = some ccol)
    (hne : currency ≠ "Date")
    (hdv : dcol.vals = dpre ++ CellValue.str date :: dpost)
    (hfirst : ∀ x ∈ dpre, x ≠ CellValue.str date)
    (hlen : dpre.length = cpre.length)
    (hcv : ccol.vals = cpre ++ v :: cpost) :
    (get_value df date currency =
        Except.error (LookupError.dataNotAvailable currency date) ↔
      v = CellValue.na) ∧
    (v ≠ CellValue.na →
      get_value df date currency = Except.ok ⟨currency, date, v⟩) := by
  have hg := get_value_first_match hD hC hne hdv hcv hlen hfirst
  constructor
  · constructor
    · intro he
      by_contra hv
      rw [hg, if_neg hv] at he
      exact Except.noConfusion he
    · intro hv
      rw [hg, if_pos hv]
  · intro hv
    rw [hg, if_neg hv]

/-- Witness for claim C8: under a duplicated date key whose later row is
null, the first row's value is returned. -/
theorem lookup_first_match_semantics_witness :
    get_value (buildTable dupCsv) "2023-11-20" "USD" =
      Except.ok ⟨"USD", "2023-11-20", CellValue.num 15 1⟩ :=
  (lookup_first_match_semantics (buildTable dupCsv) "2023-11-20" "USD"
    ⟨"Date", [CellValue.str "2023-11-20", CellValue.str "2023-11-20"]⟩
    ⟨"USD", [CellValue.num 15 1, CellValue.na]⟩
    [] [CellValue.str "2023-11-20"] [] [CellValue.na] (CellValue.num 15 1)
    (by decide) (by decide) (by decide) (by decide) (by decide) (by decide)
    (by decide)).2 (by decide)

/-- Claim C9: at the HTTP boundary every lookup failure, of whatever kind,
becomes the same response — the fixed error JSON with status 404 — while a
success becomes the result JSON with the default success status; the body
never distinguishes error kinds. -/
theorem endpoint_collapses_errors (df : DataFrame) (date currency : String) :
    (∀ e, get_value df date currency = Except.error e →
      endpoint df date currency = ⟨404, JsonBody.error genericErrorMsg⟩) ∧
    (∀ r, get_value df date currency = Except.ok r →
      endpoint df date currency = ⟨200, JsonBody.result r.currency r.date r.value⟩) := by
  constructor
  · intro e h
    rw [endpoint]
    simp only [h]
  · intro r h
    rw [endpoint]
    simp only [h]

/-- Witness for claim C9: a data-not-available failure is collapsed to the
generic 404 response. -/
theorem endpoint_collapses_errors_witness :
    endpoint (buildTable sampleCsv) "2023-11-22" "SEK" =
      ⟨404, JsonBody.error genericErrorMsg⟩ :=
  (endpoint_collapses_errors (buildTable sampleCsv) "2023-11-22" "SEK").1
    (LookupError.dataNotAvailable "SEK" "2023-11-22") (by decide)

/-- Claim C10: on a pipeline-built table, once input validation succeeds the
row selection for the date is non-empty, so the access to its first element
is in bounds: the lookup either returns a result or fails with the
data-not-available error, and never with an out-of-range access. -/
theorem lookup_safe_after_validation (csv date currency : String)
    (h : validate_inputs (buildTable csv) date currency = none) :
    get_value (buildTable csv) date currency ≠
        Except.error LookupError.indexError ∧
      ((∃ r, get_value (buildTable csv) date currency = Except.ok r) ∨
        get_value (buildTable csv) date currency =
          Except.error (LookupError.dataNotAvailable currency date)) := by
  have hd := get_value_total_of_validate_none (buildTable_rect csv) h
  refine ⟨?_, hd⟩
  rcases hd with ⟨r, hr⟩ | hr
  · rw [hr]
    exact fun hc => Except.noConfusion hc
  · rw [hr]
    intro hc
    have he : LookupError.dataNotAvailable currency date = LookupError.indexError :=
      Except.error.inj hc
    exact LookupError.noConfusion he

/-- Witness for claim C10, on the spec's sample table at the null data
point. -/
theorem lookup_safe_after_validation_witness :
    get_value (buildTable sampleCsv) "2023-11-22" "SEK" ≠
        Except.error LookupError.indexError ∧
      ((∃ r, get_value (buildTable sampleCsv) "2023-11-22" "SEK" = Except.ok r) ∨
        get_value (buildTable sampleCsv) "2023-11-22" "SEK" =
          Except.error (LookupError.dataNotAvailable "SEK" "2023-11-22")) :=
  lookup_safe_after_validation sampleCsv "2023-11-22" "SEK" (by decide)
